import Mathlib

/-!
Verification of the Instagram download-media edge functions.

Shallow embedding of the two Deno edge-function variants in
`supabase/functions/instagram-downloader/index.ts`, together with proofs
about the request-gatekeeping pipeline: CORS resolution, bearer-token
authentication, the fixed-window rate limiter, URL validation, upstream
response normalization and status mapping.

Conventions of the embedding:
* JavaScript `null`/`undefined` string values are modelled as `Option String`
  (`none` = absent).  JavaScript truthiness of a string value (`null`,
  `undefined` and `""` are falsy) is `jsTruthy`; `a || b` on such values is
  `jsOrD`.
* Timestamps (`Date.now()`, `resetTime`) are `Nat` milliseconds.
* The mutable `Map` used by the rate limiter is an association list
  (`RateStore`) threaded through the handler explicitly; the handler returns
  the response together with the store left behind.
* The upstream `fetch`/`.json()` call is a parameter of the handler: an
  `UpstreamOutcome` is either a thrown exception or the parsed JSON value.
-/

namespace InstaDL

/-- JavaScript truthiness of a nullable string: `null`/`undefined` (`none`)
and the empty string are falsy. -/
def jsTruthy : Option String → Bool
  | none => false
  | some s => !(s == "")

/-- JavaScript `a || d` for a nullable string `a` and a (string) default. -/
def jsOrD : Option String → String → String
  | none, d => d
  | some s, d => if s == "" then d else s

/-- JavaScript `a || b` for two plain strings (`""` is falsy). -/
def jsOrS (a b : String) : String :=
  if a == "" then b else a

/-- One rate-limiter entry, from
`Map<string, { count: number; resetTime: number }>` (index.ts line 99).
`resetTime` is an absolute timestamp in milliseconds. -/
structure RateLimitEntry where
  count : Nat
  resetTime : Nat
deriving DecidableEq, Repr

/-- The in-memory `rateLimiterStore`, modelled as an association list from
identity key to entry. -/
abbrev RateStore := List (String × RateLimitEntry)

/-- `rateLimiterStore.get(key)`. -/
def storeGet : RateStore → String → Option RateLimitEntry
  | [], _ => none
  | (k, e) :: rest, key => if k == key then some e else storeGet rest key

/-- `rateLimiterStore.set(key, e)` (replaces the binding if present). -/
def storeSet : RateStore → String → RateLimitEntry → RateStore
  | [], key, e => [(key, e)]
  | (k, e0) :: rest, key, e =>
    if k == key then (key, e) :: rest else (k, e0) :: storeSet rest key e

/-- Environment-derived configuration of the hardened edge function
(index.ts lines 90-95). `requiredApiKey = none` models an unset `API_KEY`. -/
structure Config where
  allowedOrigins : List String
  requiredApiKey : Option String
  rateLimitWindowSeconds : Nat
  rateLimitMaxRequests : Nat

/-- Outcome of `await req.json()` followed by destructuring `{ url }`. -/
inductive BodyParse where
  /-- the promise rejected; `some m` when the exception is an `Error`
  carrying message `m` -/
  | failed (msg : Option String)
  /-- the body parsed; `url` is the object's `url` field (`none` if absent) -/
  | parsed (url : Option String)
deriving DecidableEq, Repr

/-- The parts of the incoming request the hardened handler reads. -/
structure Request where
  method : String
  origin : Option String
  authorization : Option String
  xForwardedFor : Option String
  xRealIp : Option String
  cfConnectingIp : Option String
  body : BodyParse

/-- `setCorsHeaders` (index.ts lines 102-116), reduced to the one header it
computes conditionally: the value of `Access-Control-Allow-Origin`
(`none` = header omitted).  The two static headers
(`Access-Control-Allow-Methods`, `Access-Control-Allow-Headers`) are always
set and carry no information. -/
def setCorsHeaders (allowedOrigins : List String) (requestOrigin : Option String) :
    Option String :=
  match requestOrigin with
  | none => none
  | some o =>
    if o == "" then none          -- a falsy origin fails every guard
    else if allowedOrigins.contains ("*") then some ("*")
    else if allowedOrigins.contains o then some o
    else none

/-- A single normalized download option (the element shape produced by the
`medias.map` in `fetchInstagramMedia`, index.ts lines 162-166).  `url` is
copied from the upstream media without a default, so it stays optional. -/
structure DownloadOption where
  quality : String
  url : Option String
  size : String
deriving DecidableEq, Repr

/-- The `data` payload of a successful response (index.ts lines 170-175). -/
structure MediaResult where
  mediaType : String            -- the `type` field
  originalUrl : String
  thumbnail : Option String
  downloadOptions : List DownloadOption
deriving DecidableEq, Repr

/-- The `ApiResponse<T>` envelope (index.ts lines 119-124). -/
structure ApiResponse where
  success : Bool
  data : Option MediaResult
  error : Option String
  errorCode : Option String
deriving DecidableEq, Repr

/-- A response of the hardened handler: HTTP status, the
`Access-Control-Allow-Origin` header value (`none` = omitted), and the JSON
body (`none` = empty body, as in the OPTIONS branch). -/
structure ResponseModel where
  status : Nat
  allowOrigin : Option String
  body : Option ApiResponse
deriving DecidableEq, Repr

/-- `jsonResponse(data, status, requestOrigin)` (index.ts lines 126-134). -/
def jsonResponse (allowedOrigins : List String) (data : ApiResponse)
    (status : Nat) (requestOrigin : Option String) : ResponseModel :=
  { status := status
    allowOrigin := setCorsHeaders allowedOrigins requestOrigin
    body := some data }

/-- One element of the upstream `result.data.medias` list; every field is
optional because the upstream schema is unversioned. -/
structure UpstreamMedia where
  quality : Option String
  url : Option String
  formattedSize : Option String
deriving DecidableEq, Repr

/-- The upstream `result.data` object. -/
structure UpstreamData where
  mediaType : Option String     -- the `type` field
  thumbnail : Option String
  medias : Option (List UpstreamMedia)
deriving DecidableEq, Repr

/-- The parsed upstream JSON: `status` is the truthiness of `result.status`,
`data` is the `result.data` object if present. -/
structure UpstreamResult where
  status : Bool
  data : Option UpstreamData
deriving DecidableEq, Repr

/-- Outcome of `fetch(...)` + `response.json()` against the upstream API:
either the promise chain threw (`some m` = an `Error` with message `m`), or
it produced a parsed JSON value. -/
inductive UpstreamOutcome where
  | thrown (msg : Option String)
  | ok (result : UpstreamResult)
deriving DecidableEq, Repr

/-- The `NO_MEDIA_FOUND` envelope (index.ts lines 155-159). -/
def noMediaEnvelope : ApiResponse :=
  { success := false
    data := none
    error := some ("No media found or invalid Instagram URL. Please check the URL and try again.")
    errorCode := some ("NO_MEDIA_FOUND") }

/-- The `FETCH_FAILED` envelope (index.ts lines 179-183). -/
def fetchFailedEnvelope : ApiResponse :=
  { success := false
    data := none
    error := some ("Failed to fetch Instagram media. The external service might be unavailable or the URL is not supported.")
    errorCode := some ("FETCH_FAILED") }

/-- `fetchInstagramMedia` of the hardened variant (index.ts lines 137-185).
The guard `!result.status || !result.data || !result.data.medias ||
result.data.medias.length === 0` is rendered as nested matches; every
failing disjunct produces the same `NO_MEDIA_FOUND` envelope, so the
evaluation order of the disjuncts is immaterial. -/
def fetchInstagramMedia (url : String) (upstream : UpstreamOutcome) : ApiResponse :=
  match upstream with
  | .thrown _ => fetchFailedEnvelope
  | .ok result =>
    match result.data with
    | none => noMediaEnvelope
    | some d =>
      match d.medias with
      | none => noMediaEnvelope
      | some ms =>
        if result.status = false ∨ ms.length = 0 then noMediaEnvelope
        else
          { success := true
            data := some
              { mediaType := jsOrD d.mediaType ("post")
                originalUrl := url
                thumbnail := d.thumbnail
                downloadOptions := ms.map fun m =>
                  { quality := jsOrD m.quality ("default")
                    url := m.url
                    size := jsOrD m.formattedSize ("unknown") } }
            error := none
            errorCode := none }

/-! ## Character-list string primitives

`String.startsWith`, `String.split` and substring tests do not reduce well
in the kernel, so the matching logic below works on `String.data`
(`List Char`) with structurally recursive helpers. -/

/-- Does the pattern (first argument) occur at the head of the second list?
This is `String.startsWith` on the underlying character lists. -/
def startsWithChars : List Char → List Char → Bool
  | [], _ => true
  | _ :: _, [] => false
  | a :: as, b :: bs => a == b && startsWithChars as bs

/-- JavaScript `s.split(c)` for a one-character separator. -/
def splitOnChar (c : Char) : List Char → List (List Char)
  | [] => [[]]
  | a :: as =>
    match splitOnChar c as with
    | [] => [[a]]
    | g :: gs => if a == c then [] :: g :: gs else (a :: g) :: gs

/-- Does the pattern occur anywhere in the list (as a contiguous run)?
This is the semantics of an unanchored literal regex test. -/
def containsChars (pat : List Char) : List Char → Bool
  | [] => startsWithChars pat []
  | b :: bs => startsWithChars pat (b :: bs) || containsChars pat bs

/-! ## URL validation (hardened variant, index.ts line 269)

The regex is
`/^(https?:\/\/(?:www\.)?instagram\.com\/(?:p|reel|tv)\/[a-zA-Z0-9_-]+\/?.*)$/`.
Every alternation in it is between literal strings, so matching is: choose
an alternative for each group, check the concatenated literal prefix, and
match the tail `[a-zA-Z0-9_-]+\/?.*$` on what remains.  The tail is
embedded with its exact ECMAScript semantics: `.` (no `s` flag) matches
every character except the four line terminators, and `$` (no `m` flag)
anchors at the true end of the input, so a remainder containing a line
terminator after the identifier run (and optional slash) is rejected. -/

/-- The character class `[a-zA-Z0-9_-]`. -/
def idChar (c : Char) : Bool :=
  ('a' ≤ c && c ≤ 'z') || ('A' ≤ c && c ≤ 'Z') || ('0' ≤ c && c ≤ '9') ||
  c == '_' || c == '-'

/-- JavaScript `.` without the `s` flag: any character except the four
ECMAScript line terminators LF, CR, U+2028 (LINE SEPARATOR) and U+2029
(PARAGRAPH SEPARATOR). -/
def jsDotChar (c : Char) : Bool :=
  !(c == '\n' || c == '\r' || c == '\u2028' || c == '\u2029')

/-- `.*$`: without the `m` flag `$` asserts the true end of the input, so
the whole remainder must consist of `.`-matchable characters. -/
def matchDotStarEnd (cs : List Char) : Bool :=
  cs.all jsDotChar

/-- `\/?.*$`: the engine tries both consuming a literal slash (when one is
at the head) and skipping the optional group. -/
def matchSlashOptTail (cs : List Char) : Bool :=
  (match cs with
   | c :: r => c == '/' && matchDotStarEnd r
   | [] => false) ||
  matchDotStarEnd cs

/-- `[a-zA-Z0-9_-]*\/?.*$`: at each position the star either stops (and
the rest of the tail must match) or consumes one more class character. -/
def matchIdStarTail : List Char → Bool
  | [] => matchSlashOptTail []
  | c :: r => matchSlashOptTail (c :: r) || (idChar c && matchIdStarTail r)

/-- The regex tail `[a-zA-Z0-9_-]+\/?.*$`: the `+` demands one class
character, then behaves as `[a-zA-Z0-9_-]*\/?.*$`. -/
def regexTailMatch : List Char → Bool
  | [] => false
  | c :: r => idChar c && matchIdStarTail r

/-- The regex after the scheme and optional `www.`: the alternation
`(?:p|reel|tv)\/` concatenated with the tail. -/
def regexSegTail (cs : List Char) : Bool :=
  [("p/"), ("reel/"), ("tv/")].any fun seg =>
    startsWithChars seg.data cs && regexTailMatch (cs.drop seg.data.length)

/-- The regex after the scheme: optional `www.`, then the literal
`instagram.com/`, then segment and tail. -/
def regexAfterScheme (cs : List Char) : Bool :=
  [(""), ("www.")].any fun w =>
    startsWithChars w.data cs &&
    (startsWithChars ("instagram.com/").data (cs.drop w.data.length) &&
     regexSegTail ((cs.drop w.data.length).drop 14))

/-- `isValidInstagramUrl` (index.ts line 269): the anchored regex above.
`https?` is the two-way alternation between the literal schemes. -/
def isValidInstagramUrl (s : String) : Bool :=
  [("http://"), ("https://")].any fun scheme =>
    startsWithChars scheme.data s.data &&
    regexAfterScheme (s.data.drop scheme.data.length)

/-! ## Handler pieces (hardened variant) -/

/-- `clientIp` (index.ts line 190):
`X-Forwarded-For || X-Real-IP || CF-Connecting-IP || 'unknown-ip'`. -/
def clientIpOf (req : Request) : String :=
  jsOrD req.xForwardedFor (jsOrD req.xRealIp (jsOrD req.cfConnectingIp ("unknown-ip")))

/-- The origin gate (index.ts line 201):
`requestOrigin && !ALLOWED_ORIGINS.includes('*') && !ALLOWED_ORIGINS.includes(requestOrigin)`. -/
def originRejected (cfg : Config) (req : Request) : Bool :=
  jsTruthy req.origin && !cfg.allowedOrigins.contains ("*") &&
    !cfg.allowedOrigins.contains (req.origin.getD (""))

/-- The auth-header check (index.ts line 212), negated:
`authHeader && authHeader.startsWith('Bearer ')`. -/
def authValid (auth : Option String) : Bool :=
  jsTruthy auth && startsWithChars ("Bearer ").data (auth.getD ("")).data

/-- `token = authHeader.split(' ')[1]` (index.ts line 221); the index is
always populated when the header passed `authValid`. -/
def tokenOf (auth : Option String) : String :=
  String.mk ((splitOnChar ' ' (auth.getD ("")).data).getD 1 [])

/-- The credential check (index.ts line 222):
`REQUIRED_API_KEY && token !== REQUIRED_API_KEY`. -/
def apiKeyRejected (cfg : Config) (token : String) : Bool :=
  jsTruthy cfg.requiredApiKey && !(token == cfg.requiredApiKey.getD (""))

/-- `rateLimitKey = token || clientIp` (index.ts line 233). -/
def rateLimitKeyOf (req : Request) : String :=
  jsOrS (tokenOf req.authorization) (clientIpOf req)

/-- Outcome of the rate-limiter section for one request. -/
inductive RateOutcome where
  | admitted
  | limited
deriving DecidableEq, Repr, BEq

/-- The rate-limiter section (index.ts lines 234-252).  In the source,
`entry.count++` mutates the object shared with the map, so the incremented
count persists even on the 429 path (the subsequent `set` on the admitted
path is a no-op on the same object). -/
def rateLimitStep (cfg : Config) (store : RateStore) (key : String) (now : Nat) :
    RateOutcome × RateStore :=
  match storeGet store key with
  | none =>
    (.admitted, storeSet store key ⟨1, now + cfg.rateLimitWindowSeconds * 1000⟩)
  | some entry =>
    if entry.resetTime < now then
      (.admitted, storeSet store key ⟨1, now + cfg.rateLimitWindowSeconds * 1000⟩)
    else
      let bumped : RateLimitEntry := ⟨entry.count + 1, entry.resetTime⟩
      if cfg.rateLimitMaxRequests < bumped.count then
        (.limited, storeSet store key bumped)
      else
        (.admitted, storeSet store key bumped)

/-- The `UNAUTHORIZED_ORIGIN` envelope (index.ts line 204). -/
def unauthorizedOriginEnvelope : ApiResponse :=
  { success := false, data := none,
    error := some ("Unauthorized origin."),
    errorCode := some ("UNAUTHORIZED_ORIGIN") }

/-- The `AUTH_REQUIRED` envelope (index.ts line 215). -/
def authRequiredEnvelope : ApiResponse :=
  { success := false, data := none,
    error := some ("Authentication required. Please provide a valid Bearer token."),
    errorCode := some ("AUTH_REQUIRED") }

/-- The `INVALID_API_KEY` envelope (index.ts line 225). -/
def invalidApiKeyEnvelope : ApiResponse :=
  { success := false, data := none,
    error := some ("Invalid API key."),
    errorCode := some ("INVALID_API_KEY") }

/-- The `RATE_LIMITED` envelope (index.ts line 246). -/
def rateLimitedEnvelope : ApiResponse :=
  { success := false, data := none,
    error := some ("Too many requests. Please try again later."),
    errorCode := some ("RATE_LIMITED") }

/-- The `URL_REQUIRED` envelope (index.ts line 263). -/
def urlRequiredEnvelope : ApiResponse :=
  { success := false, data := none,
    error := some ("URL is required in the request body."),
    errorCode := some ("URL_REQUIRED") }

/-- The `INVALID_INSTAGRAM_URL` envelope (index.ts line 273). -/
def invalidUrlEnvelope : ApiResponse :=
  { success := false, data := none,
    error := some ("Please enter a valid Instagram post, reel, or IGTV URL (e.g., https://www.instagram.com/p/...)."),
    errorCode := some ("INVALID_INSTAGRAM_URL") }

/-- The `INTERNAL_ERROR` envelope (index.ts line 289). -/
def internalErrorEnvelope : ApiResponse :=
  { success := false, data := none,
    error := some ("Invalid request body or internal server error."),
    errorCode := some ("INTERNAL_ERROR") }

/-- The hardened `serve` handler (index.ts lines 188-294).  The rate-limiter
store is threaded explicitly; `now` is `Date.now()`; `upstream` is the
outcome of the (single) upstream call, consulted only if control reaches
`fetchInstagramMedia`. -/
def handler (cfg : Config) (store : RateStore) (now : Nat) (req : Request)
    (upstream : UpstreamOutcome) : ResponseModel × RateStore :=
  let requestOrigin := req.origin
  if req.method == "OPTIONS" then
    ({ status := 200,
       allowOrigin := setCorsHeaders cfg.allowedOrigins requestOrigin,
       body := none }, store)
  else if originRejected cfg req then
    (jsonResponse cfg.allowedOrigins unauthorizedOriginEnvelope 403 requestOrigin, store)
  else if !authValid req.authorization then
    (jsonResponse cfg.allowedOrigins authRequiredEnvelope 401 requestOrigin, store)
  else if apiKeyRejected cfg (tokenOf req.authorization) then
    (jsonResponse cfg.allowedOrigins invalidApiKeyEnvelope 401 requestOrigin, store)
  else
    let step := rateLimitStep cfg store (rateLimitKeyOf req) now
    match step.1 with
    | .limited =>
      (jsonResponse cfg.allowedOrigins rateLimitedEnvelope 429 requestOrigin, step.2)
    | .admitted =>
      match req.body with
      | .failed _ =>
        (jsonResponse cfg.allowedOrigins internalErrorEnvelope 500 requestOrigin, step.2)
      | .parsed urlField =>
        if !jsTruthy urlField then
          (jsonResponse cfg.allowedOrigins urlRequiredEnvelope 400 requestOrigin, step.2)
        else
          let url := urlField.getD ("")
          if !isValidInstagramUrl url then
            (jsonResponse cfg.allowedOrigins invalidUrlEnvelope 400 requestOrigin, step.2)
          else
            let result := fetchInstagramMedia url upstream
            let status : Nat :=
              if result.success then 200
              else if result.errorCode == some ("NO_MEDIA_FOUND") then 404
              else 500
            (jsonResponse cfg.allowedOrigins result status requestOrigin, step.2)

/-- The `errorCode` of a response's JSON body, if any. -/
def respErrCode (r : ResponseModel) : Option String :=
  match r.body with
  | none => none
  | some b => b.errorCode

/-! ## The first edge-function variant (index.ts lines 1-87)

The original variant has no origin gate, no auth, no rate limiter; its
static `corsHeaders` always carry `Access-Control-Allow-Origin: *`, its
failure bodies have no `success` flag and no `errorCode`, and it answers
HTTP 200 even for upstream failures. -/

/-- The `data` payload of the first variant's success response (the field
holding the original URL is named `url` there, not `originalUrl`). -/
structure MediaResultV1 where
  mediaType : String
  url : String
  thumbnail : Option String
  downloadOptions : List DownloadOption
deriving DecidableEq, Repr

/-- A JSON body of the first variant: each field is present only when the
producing code path wrote it (`errorCode` never is). -/
structure V1Body where
  success : Option Bool
  data : Option MediaResultV1
  error : Option String
  errorCode : Option String
deriving DecidableEq, Repr

/-- The parts of the request the first variant reads. -/
structure RequestV1 where
  method : String
  body : BodyParse

/-- A response of the first variant. -/
structure ResponseV1 where
  status : Nat
  allowOrigin : Option String
  body : Option V1Body
deriving DecidableEq, Repr

/-- `fetchInstagramMedia` of the first variant (index.ts lines 9-49). -/
def fetchInstagramMediaV1 (url : String) (upstream : UpstreamOutcome) : V1Body :=
  match upstream with
  | .thrown m =>
    { success := some false, data := none,
      error := some (m.getD ("Failed to fetch real Instagram media")),
      errorCode := none }
  | .ok result =>
    match result.data with
    | none =>
      { success := some false, data := none,
        error := some ("No media found or invalid Instagram URL."), errorCode := none }
    | some d =>
      match d.medias with
      | none =>
        { success := some false, data := none,
          error := some ("No media found or invalid Instagram URL."), errorCode := none }
      | some ms =>
        if result.status = false ∨ ms.length = 0 then
          { success := some false, data := none,
            error := some ("No media found or invalid Instagram URL."), errorCode := none }
        else
          { success := some true,
            data := some
              { mediaType := jsOrD d.mediaType ("post")
                url := url
                thumbnail := d.thumbnail
                downloadOptions := ms.map fun m =>
                  { quality := jsOrD m.quality ("default")
                    url := m.url
                    size := jsOrD m.formattedSize ("unknown") } }
            error := none
            errorCode := none }

/-- The first variant's `Deno.serve` handler (index.ts lines 51-87).  Its
URL check is the unanchored regex `/instagram\.com/`, a substring test. -/
def handlerV1 (req : RequestV1) (upstream : UpstreamOutcome) : ResponseV1 :=
  if req.method == "OPTIONS" then
    { status := 200, allowOrigin := some ("*"), body := none }
  else
    match req.body with
    | .failed m =>
      { status := 500, allowOrigin := some ("*"),
        body := some { success := none, data := none,
                       error := some (m.getD ("Internal server error")),
                       errorCode := none } }
    | .parsed urlField =>
      if !jsTruthy urlField then
        { status := 400, allowOrigin := some ("*"),
          body := some { success := none, data := none,
                         error := some ("URL is required"), errorCode := none } }
      else
        let url := urlField.getD ("")
        if !containsChars ("instagram.com").data url.data then
          { status := 400, allowOrigin := some ("*"),
            body := some { success := none, data := none,
                           error := some ("Please enter a valid Instagram URL"),
                           errorCode := none } }
        else
          { status := 200, allowOrigin := some ("*"),
            body := some (fetchInstagramMediaV1 url upstream) }

/-! ## Derived gate predicates and request sequences -/

/-- The upstream-result guard of `fetchInstagramMedia` (index.ts line 153):
`!result.status || !result.data || !result.data.medias ||
result.data.medias.length === 0`. -/
def upstreamNoMedia (r : UpstreamResult) : Bool :=
  !r.status ||
  (match r.data with
   | none => true
   | some d =>
     match d.medias with
     | none => true
     | some ms => ms.length == 0)

/-- Run the rate-limiter section once per request time, recording each
outcome; the i-th element is the outcome of the (i+1)-th request. -/
def runOutcomes (cfg : Config) (key : String) :
    RateStore → List Nat → List RateOutcome × RateStore
  | store, [] => ([], store)
  | store, t :: ts =>
    let step := rateLimitStep cfg store key t
    let rest := runOutcomes cfg key step.2 ts
    (step.1 :: rest.1, rest.2)

/-! ## Spec-side definitions

These follow the wording of the specification, to be compared with the
definitions above that were translated from the source. -/

/-- Tail of the URL pattern as the spec words it: a non-empty content
identifier of `[a-zA-Z0-9_-]` characters, optionally followed by a trailing
slash and an arbitrary suffix.  The greedy `takeWhile` split is the only
candidate decomposition, because the part after the identifier must be
empty or begin with `/`, which is not an identifier character. -/
def claimIdTail (cs : List Char) : Bool :=
  match cs.takeWhile idChar, cs.dropWhile idChar with
  | [], _ => false
  | _ :: _, [] => true
  | _ :: _, c :: _ => c == '/'

/-- Modelled from the claim wording of C4: OPTIONAL `https://`/`http://`
scheme, optional `www.`, literal `instagram.com/`, a segment `p`, `reel` or
`tv` with its slash, then `claimIdTail`. -/
def claimUrlPattern (s : String) : Bool :=
  [(""), ("http://"), ("https://")].any fun scheme =>
    [(""), ("www.")].any fun w =>
      [("p/"), ("reel/"), ("tv/")].any fun seg =>
        let pre := scheme.data ++ w.data ++ ("instagram.com/").data ++ seg.data
        startsWithChars pre s.data && claimIdTail (s.data.drop pre.length)

/-- The amended tail as worded: a non-empty run of `[a-zA-Z0-9_-]`
characters, optionally one following slash, then an arbitrary suffix that
is free of line terminators.  The greedy `takeWhile` split suffices: taking
fewer identifier characters only lengthens the part the terminator-free
condition must cover, and a slash can only sit right after the maximal
run. -/
def specTail (cs : List Char) : Bool :=
  match cs.takeWhile idChar, cs.dropWhile idChar with
  | [], _ => false
  | _ :: _, d :: r => if d == '/' then r.all jsDotChar else (d :: r).all jsDotChar
  | _ :: _, [] => true

/-- The amended pattern after the domain: one of `p/`, `reel/`, `tv/`
(mutually exclusive literals, so a deterministic chain), then the amended
tail. -/
def specSegment (cs : List Char) : Bool :=
  if startsWithChars ("p/").data cs then specTail (cs.drop 2)
  else if startsWithChars ("reel/").data cs then specTail (cs.drop 5)
  else if startsWithChars ("tv/").data cs then specTail (cs.drop 3)
  else false

/-- The amended pattern after the scheme: optional `www.`, then
`instagram.com/`, then `specSegment`. -/
def specAfterScheme (cs : List Char) : Bool :=
  if startsWithChars ("www.").data cs then
    startsWithChars ("instagram.com/").data (cs.drop 4) && specSegment ((cs.drop 4).drop 14)
  else
    startsWithChars ("instagram.com/").data cs && specSegment (cs.drop 14)

/-- The URL pattern as amended for C4: the scheme is REQUIRED, and after
the segment a non-empty identifier run must follow, then optionally one
slash, then a remainder that is arbitrary except that it may not contain a
line terminator (and need not be slash-separated). -/
def amendedUrlPattern (s : String) : Bool :=
  if startsWithChars ("https://").data s.data then specAfterScheme (s.data.drop 8)
  else if startsWithChars ("http://").data s.data then specAfterScheme (s.data.drop 7)
  else false

/-- The envelope invariant of the spec (section 3): exactly one of `data`
(success) or `error`/`errorCode` (failure) populated, and failure bodies
carry `success:false` plus both error fields. -/
def envelopeOk (b : ApiResponse) : Prop :=
  (b.success = true → b.data.isSome = true ∧ b.error = none ∧ b.errorCode = none) ∧
  (b.success = false → b.data = none ∧ b.error.isSome = true ∧ b.errorCode.isSome = true)

/-- Convenience constructor for a request, used by concrete instances. -/
def mkReq (m : String) (o auth xff xri cf : Option String) (b : BodyParse) : Request :=
  { method := m, origin := o, authorization := auth,
    xForwardedFor := xff, xRealIp := xri, cfConnectingIp := cf, body := b }

/-! ## General lemmas -/

theorem storeGet_storeSet_self :
    ∀ (store : RateStore) (k : String) (e : RateLimitEntry),
      storeGet (storeSet store k e) k = some e
  | [], k, e => by simp [storeSet, storeGet]
  | (k0, e0) :: rest, k, e => by
    by_cases h : k0 == k
    · simp [storeSet, storeGet, h]
    · simp only [storeSet, storeGet, h, Bool.false_eq_true, if_false, if_neg]
      exact storeGet_storeSet_self rest k e

theorem startsWithChars_take :
    ∀ (p cs : List Char), startsWithChars p cs = true → cs.take p.length = p
  | [], cs, _ => by simp
  | a :: as, [], h => by simp [startsWithChars] at h
  | a :: as, b :: bs, h => by
    simp only [startsWithChars, Bool.and_eq_true, beq_iff_eq] at h
    simp [h.1.symm, startsWithChars_take as bs h.2]

/-- Two literal patterns that are not extensions of one another can never
both match at the head of the same list. -/
theorem startsWithChars_disjoint (p q cs : List Char)
    (hlen : p.length ≤ q.length) (hne : q.take p.length ≠ p)
    (hp : startsWithChars p cs = true) (hq : startsWithChars q cs = true) : False := by
  apply hne
  have h1 := startsWithChars_take p cs hp
  have h2 := startsWithChars_take q cs hq
  calc q.take p.length = (cs.take q.length).take p.length := by rw [h2]
    _ = cs.take (min p.length q.length) := List.take_take p.length q.length cs
    _ = cs.take p.length := by rw [Nat.min_eq_left hlen]
    _ = p := h1

theorem startsWithChars_nil (cs : List Char) :
    startsWithChars [] cs = true := rfl

theorem len_seg_p : ("p/" : String).length = 2 := rfl

theorem len_seg_reel : ("reel/" : String).length = 5 := rfl

theorem len_seg_tv : ("tv/" : String).length = 3 := rfl

theorem len_www : ("www." : String).length = 4 := rfl

theorem len_http : ("http://" : String).length = 7 := rfl

theorem len_https : ("https://" : String).length = 8 := rfl

theorem matchSlashOptTail_of_all (cs : List Char) (h : cs.all jsDotChar = true) :
    matchSlashOptTail cs = true := by
  simp [matchSlashOptTail, matchDotStarEnd, h]

theorem all_dropWhile_of_all (p q : Char → Bool) (cs : List Char)
    (h : cs.all p = true) : (cs.dropWhile q).all p = true := by
  rw [List.all_eq_true] at h ⊢
  intro x hx
  exact h x ((List.dropWhile_sublist q).subset hx)

theorem idChar_ne_slash (c : Char) (h : idChar c = true) : (c == '/') = false := by
  by_cases hc : c = '/'
  · subst hc
    exact absurd h (by decide)
  · simp [hc]

/-- Greedy completeness for the star: backtracking over how many class
characters `[a-zA-Z0-9_-]*` consumes is equivalent to consuming the maximal
run, because stopping earlier leaves a class character (never a slash) at
the head and only lengthens what `.*$` must cover. -/
theorem matchIdStarTail_greedy : ∀ cs : List Char,
    matchIdStarTail cs = matchSlashOptTail (cs.dropWhile idChar)
  | [] => by simp [matchIdStarTail]
  | c :: r => by
    by_cases hc : idChar c = true
    · have hslash := idChar_ne_slash c hc
      rw [matchIdStarTail, matchIdStarTail_greedy r, hc, Bool.true_and,
        List.dropWhile_cons_of_pos hc]
      cases hrhs : matchSlashOptTail (r.dropWhile idChar) with
      | true => simp [hrhs]
      | false =>
        simp only [hrhs, Bool.or_false]
        simp only [matchSlashOptTail, matchDotStarEnd, hslash, Bool.false_and,
          Bool.false_or, List.all_cons]
        cases hall : r.all jsDotChar with
        | false => simp [hall]
        | true =>
          have hcontra := matchSlashOptTail_of_all _
            (all_dropWhile_of_all jsDotChar idChar r hall)
          rw [hcontra] at hrhs
          cases hrhs
    · have hc' : idChar c = false := by simpa using hc
      rw [matchIdStarTail, hc', Bool.false_and, Bool.or_false,
        List.dropWhile_cons_of_neg hc]

theorem regexTail_eq_specTail : ∀ cs, regexTailMatch cs = specTail cs
  | [] => rfl
  | c :: r => by
    by_cases hc : idChar c = true
    · rw [regexTailMatch, matchIdStarTail_greedy r, hc, Bool.true_and]
      simp only [specTail, List.takeWhile_cons, List.dropWhile_cons_of_pos hc, hc,
        if_true]
      cases hds : r.dropWhile idChar with
      | nil => simp [matchSlashOptTail, matchDotStarEnd]
      | cons d r2 =>
        by_cases hd : (d == '/') = true
        · have hd' : d = '/' := by simpa using hd
          subst hd'
          simp [matchSlashOptTail, matchDotStarEnd]
        · have hd' : (d == '/') = false := by simpa using hd
          simp [matchSlashOptTail, matchDotStarEnd, hd']
    · have hc' : idChar c = false := by simpa using hc
      simp [regexTailMatch, specTail, List.takeWhile_cons, hc']

theorem regexSegTail_eq_specSegment (cs : List Char) :
    regexSegTail cs = specSegment cs := by
  cases hp : startsWithChars ("p/").data cs with
  | true =>
    have hr : startsWithChars ("reel/").data cs = false := by
      cases hr0 : startsWithChars ("reel/").data cs with
      | false => rfl
      | true =>
        exact (startsWithChars_disjoint ("p/").data ("reel/").data cs
          (by decide) (by decide) hp hr0).elim
    have ht : startsWithChars ("tv/").data cs = false := by
      cases ht0 : startsWithChars ("tv/").data cs with
      | false => rfl
      | true =>
        exact (startsWithChars_disjoint ("p/").data ("tv/").data cs
          (by decide) (by decide) hp ht0).elim
    simp [regexSegTail, specSegment, hp, hr, ht, regexTail_eq_specTail, len_seg_p]
  | false =>
    cases hr : startsWithChars ("reel/").data cs with
    | true =>
      have ht : startsWithChars ("tv/").data cs = false := by
        cases ht0 : startsWithChars ("tv/").data cs with
        | false => rfl
        | true =>
          exact (startsWithChars_disjoint ("tv/").data ("reel/").data cs
            (by decide) (by decide) ht0 hr).elim
      simp [regexSegTail, specSegment, hp, hr, ht, regexTail_eq_specTail, len_seg_reel]
    | false =>
      cases ht : startsWithChars ("tv/").data cs with
      | true => simp [regexSegTail, specSegment, hp, hr, ht, regexTail_eq_specTail, len_seg_tv]
      | false => simp [regexSegTail, specSegment, hp, hr, ht]

theorem regexAfterScheme_eq_spec (cs : List Char) :
    regexAfterScheme cs = specAfterScheme cs := by
  cases hw : startsWithChars ("www.").data cs with
  | true =>
    have hi : startsWithChars ("instagram.com/").data cs = false := by
      cases hi0 : startsWithChars ("instagram.com/").data cs with
      | false => rfl
      | true =>
        exact (startsWithChars_disjoint ("www.").data ("instagram.com/").data cs
          (by decide) (by decide) hw hi0).elim
    simp [regexAfterScheme, specAfterScheme, hw, hi, startsWithChars_nil,
      regexSegTail_eq_specSegment, len_www]
  | false =>
    simp [regexAfterScheme, specAfterScheme, hw, startsWithChars_nil,
      regexSegTail_eq_specSegment]

theorem isValid_eq_amended (s : String) :
    isValidInstagramUrl s = amendedUrlPattern s := by
  cases hs : startsWithChars ("https://").data s.data with
  | true =>
    have hh : startsWithChars ("http://").data s.data = false := by
      cases hh0 : startsWithChars ("http://").data s.data with
      | false => rfl
      | true =>
        exact (startsWithChars_disjoint ("http://").data ("https://").data s.data
          (by decide) (by decide) hh0 hs).elim
    simp [isValidInstagramUrl, amendedUrlPattern, hs, hh, regexAfterScheme_eq_spec, len_https]
  | false =>
    cases hh : startsWithChars ("http://").data s.data with
    | true => simp [isValidInstagramUrl, amendedUrlPattern, hs, hh, regexAfterScheme_eq_spec, len_http]
    | false => simp [isValidInstagramUrl, amendedUrlPattern, hs, hh]

theorem fetch_thrown (url : String) (m : Option String) :
    fetchInstagramMedia url (.thrown m) = fetchFailedEnvelope := rfl

theorem fetch_noMedia (url : String) (r : UpstreamResult)
    (h : upstreamNoMedia r = true) :
    fetchInstagramMedia url (.ok r) = noMediaEnvelope := by
  rcases r with ⟨st, data⟩
  cases data with
  | none => rfl
  | some d =>
    cases hm : d.medias with
    | none => simp [fetchInstagramMedia, hm]
    | some ms =>
      simp only [upstreamNoMedia, hm, Bool.or_eq_true, Bool.not_eq_true'] at h
      rcases h with h | h
      · simp [fetchInstagramMedia, hm, h]
      · simp only [beq_iff_eq] at h
        simp [fetchInstagramMedia, hm, h]

theorem fetch_hasMedia (url : String) (r : UpstreamResult)
    (h : upstreamNoMedia r = false) :
    ∃ d ms, r.data = some d ∧ d.medias = some ms ∧ r.status = true ∧ ms ≠ [] ∧
      fetchInstagramMedia url (.ok r) =
        { success := true
          data := some
            { mediaType := jsOrD d.mediaType ("post")
              originalUrl := url
              thumbnail := d.thumbnail
              downloadOptions := ms.map fun m =>
                { quality := jsOrD m.quality ("default")
                  url := m.url
                  size := jsOrD m.formattedSize ("unknown") } }
          error := none
          errorCode := none } := by
  rcases r with ⟨st, data⟩
  cases data with
  | none => simp [upstreamNoMedia] at h
  | some d =>
    cases hm : d.medias with
    | none => simp [upstreamNoMedia, hm] at h
    | some ms =>
      simp only [upstreamNoMedia, hm, Bool.or_eq_false_iff, Bool.not_eq_false'] at h
      rcases h with ⟨hst, hl⟩
      have hne : ms ≠ [] := by
        intro hnil
        rw [hnil] at hl
        simp at hl
      refine ⟨d, ms, rfl, hm, hst, hne, ?_⟩
      subst hst
      simp [fetchInstagramMedia, hm, hne]

theorem fetch_envelopeOk (url : String) (up : UpstreamOutcome) :
    envelopeOk (fetchInstagramMedia url up) := by
  cases up with
  | thrown m =>
    rw [fetch_thrown]
    exact ⟨fun h => by simp [fetchFailedEnvelope] at h, fun _ => by simp [fetchFailedEnvelope]⟩
  | ok r =>
    cases hn : upstreamNoMedia r with
    | true =>
      rw [fetch_noMedia url r hn]
      exact ⟨fun h => by simp [noMediaEnvelope] at h, fun _ => by simp [noMediaEnvelope]⟩
    | false =>
      rcases fetch_hasMedia url r hn with ⟨d, ms, _, _, _, _, heq⟩
      rw [heq]
      exact ⟨fun _ => by simp, fun h => by simp at h⟩

theorem fetch_errorCode_cases (url : String) (up : UpstreamOutcome) :
    (fetchInstagramMedia url up).errorCode = some ("FETCH_FAILED") ∨
    (fetchInstagramMedia url up).errorCode = some ("NO_MEDIA_FOUND") ∨
    (fetchInstagramMedia url up).errorCode = none := by
  cases up with
  | thrown m => left; rfl
  | ok r =>
    cases hn : upstreamNoMedia r with
    | true => right; left; rw [fetch_noMedia url r hn]; rfl
    | false =>
      rcases fetch_hasMedia url r hn with ⟨d, ms, _, _, _, _, heq⟩
      right; right; rw [heq]

/-- Within a live window (every request time at or before the entry's reset
time), each request increments the stored count by one — also when it is
rejected — and the (i+1)-th processed request is admitted exactly when the
incremented count stays at or below the configured maximum. -/
theorem runOutcomes_window (cfg : Config) (key : String) :
    ∀ (ts : List Nat) (store : RateStore) (c r : Nat),
      storeGet store key = some ⟨c, r⟩ →
      (∀ t ∈ ts, t ≤ r) →
      storeGet (runOutcomes cfg key store ts).2 key = some ⟨c + ts.length, r⟩ ∧
      (∀ i, ((runOutcomes cfg key store ts).1)[i]? = some RateOutcome.admitted ↔
            i < ts.length ∧ c + i + 1 ≤ cfg.rateLimitMaxRequests)
  | [], store, c, r, hentry, _ => by
    refine ⟨by simpa [runOutcomes] using hentry, fun i => ?_⟩
    simp [runOutcomes]
  | t :: ts, store, c, r, hentry, hts => by
    have hnot : ¬ r < t := Nat.not_lt.mpr (hts t (by simp))
    have hstep2 :
        (rateLimitStep cfg store key t).2 = storeSet store key ⟨c + 1, r⟩ := by
      simp only [rateLimitStep, hentry, if_neg hnot]
      split <;> rfl
    have hget2 : storeGet (rateLimitStep cfg store key t).2 key = some ⟨c + 1, r⟩ := by
      rw [hstep2]; exact storeGet_storeSet_self store key ⟨c + 1, r⟩
    have ih := runOutcomes_window cfg key ts (rateLimitStep cfg store key t).2 (c + 1) r
      hget2 (fun t' ht' => hts t' (by simp [ht']))
    refine ⟨?_, fun i => ?_⟩
    · have := ih.1
      simpa [runOutcomes, Nat.add_assoc, Nat.add_comm 1 ts.length] using this
    · cases i with
      | zero =>
        simp only [runOutcomes, List.getElem?_cons_zero, Option.some_inj]
        constructor
        · intro h1
          refine ⟨by simp, ?_⟩
          by_contra hgt
          have hlt : cfg.rateLimitMaxRequests < c + 1 := by omega
          simp only [rateLimitStep, hentry, if_neg hnot, if_pos hlt] at h1
          cases h1
        · rintro ⟨-, hle⟩
          have hnlt : ¬ cfg.rateLimitMaxRequests < c + 1 := by omega
          simp only [rateLimitStep, hentry, if_neg hnot, if_neg hnlt]
      | succ j =>
        have := ih.2 j
        simp only [runOutcomes, List.getElem?_cons_succ]
        rw [this]
        simp only [List.length_cons]
        omega

/-- Once the pre-flight, origin, auth-header and credential gates have all
been passed, the handler's store is the one left by the rate-limiter step,
and its error code is one of the post-auth codes (or none on success). -/
theorem handler_past_auth (cfg : Config) (store : RateStore) (now : Nat)
    (req : Request) (up : UpstreamOutcome)
    (hm : (req.method == "OPTIONS") = false)
    (ho : originRejected cfg req = false)
    (ha : authValid req.authorization = true)
    (hk : apiKeyRejected cfg (tokenOf req.authorization) = false) :
    (handler cfg store now req up).2 =
      (rateLimitStep cfg store (rateLimitKeyOf req) now).2 ∧
    (respErrCode (handler cfg store now req up).1 = some ("RATE_LIMITED") ∨
     respErrCode (handler cfg store now req up).1 = some ("INTERNAL_ERROR") ∨
     respErrCode (handler cfg store now req up).1 = some ("URL_REQUIRED") ∨
     respErrCode (handler cfg store now req up).1 = some ("INVALID_INSTAGRAM_URL") ∨
     respErrCode (handler cfg store now req up).1 = some ("FETCH_FAILED") ∨
     respErrCode (handler cfg store now req up).1 = some ("NO_MEDIA_FOUND") ∨
     respErrCode (handler cfg store now req up).1 = none) := by
  simp only [handler, hm, ho, ha, hk, Bool.not_true, Bool.false_eq_true, if_false]
  cases hrl : (rateLimitStep cfg store (rateLimitKeyOf req) now).1 with
  | limited =>
    simp [respErrCode, jsonResponse, rateLimitedEnvelope]
  | admitted =>
    cases hb : req.body with
    | failed m =>
      simp [respErrCode, jsonResponse, internalErrorEnvelope]
    | parsed u =>
      by_cases hu : jsTruthy u = true
      · by_cases hv : isValidInstagramUrl (u.getD ("")) = true
        · rcases fetch_errorCode_cases (u.getD ("")) up with hc | hc | hc <;>
            simp [hu, hv, respErrCode, jsonResponse, hc]
        · simp only [Bool.not_eq_true] at hv
          simp [hu, hv, respErrCode, jsonResponse, invalidUrlEnvelope]
      · simp only [Bool.not_eq_true] at hu
        simp [hu, respErrCode, jsonResponse, urlRequiredEnvelope]

/-- Reduction of the handler on a fully admitted request carrying a truthy
`url`: only the URL-validation and upstream stages remain. -/
theorem handler_admitted_parsed (cfg : Config) (store : RateStore) (now : Nat)
    (req : Request) (up : UpstreamOutcome) (u : String)
    (hm : (req.method == "OPTIONS") = false)
    (ho : originRejected cfg req = false)
    (ha : authValid req.authorization = true)
    (hk : apiKeyRejected cfg (tokenOf req.authorization) = false)
    (hrl : (rateLimitStep cfg store (rateLimitKeyOf req) now).1 = .admitted)
    (hb : req.body = .parsed (some u)) (hu : u ≠ "") :
    handler cfg store now req up =
      (if isValidInstagramUrl u then
        jsonResponse cfg.allowedOrigins (fetchInstagramMedia u up)
          (if (fetchInstagramMedia u up).success then 200
           else if (fetchInstagramMedia u up).errorCode == some ("NO_MEDIA_FOUND") then 404
           else 500)
          req.origin
       else jsonResponse cfg.allowedOrigins invalidUrlEnvelope 400 req.origin,
       (rateLimitStep cfg store (rateLimitKeyOf req) now).2) := by
  have hut : jsTruthy (some u) = true := by simp [jsTruthy, hu]
  simp only [handler, hm, ho, ha, hk, Bool.not_true, Bool.false_eq_true, if_false,
    hrl, hb, hut, Bool.not_false, if_true, Option.getD_some]
  by_cases hv : isValidInstagramUrl u = true
  · simp [hv]
  · simp only [Bool.not_eq_true] at hv
    simp [hv]

/-! ## Claim theorems -/

/-- C7 counterexample: a pre-flight request is answered with HTTP status
200, not 204 as the claim states — `new Response(null, { headers })` takes
the constructor's default status. -/
theorem c7_preflight_cex :
    (handler ⟨[("*")], none, 60, 10⟩ [] 0
      (mkReq ("OPTIONS") (some ("http://a.example")) none none none none (.parsed none))
      (.thrown none)).1.status = 200 ∧
    ¬ (handler ⟨[("*")], none, 60, 10⟩ [] 0
        (mkReq ("OPTIONS") (some ("http://a.example")) none none none none (.parsed none))
        (.thrown none)).1.status = 204 := by
  exact ⟨by decide, by decide⟩

/-- C7 (amended): every OPTIONS request gets a terminal response with empty
body and HTTP status 200 (not 204) carrying the computed CORS headers, and
neither the authentication gate nor the rate limiter executes — the
rate-limiter store is returned unchanged. -/
theorem c7_preflight (cfg : Config) (store : RateStore) (now : Nat)
    (req : Request) (up : UpstreamOutcome) (h : req.method = "OPTIONS") :
    (handler cfg store now req up).1 =
      { status := 200, allowOrigin := setCorsHeaders cfg.allowedOrigins req.origin,
        body := none } ∧
    (handler cfg store now req up).2 = store := by
  have hm : (req.method == "OPTIONS") = true := by simp [h]
  exact ⟨by simp [handler, hm], by simp [handler, hm]⟩

/-- C7 witness: the amended statement at a concrete pre-flight request. -/
theorem c7_preflight_witness :
    (handler ⟨[("*")], none, 60, 10⟩ [] 0
      (mkReq ("OPTIONS") none (some ("not a bearer header")) none none none (.parsed none))
      (.thrown none)).1 =
      { status := 200, allowOrigin := setCorsHeaders [("*")] none, body := none } ∧
    (handler ⟨[("*")], none, 60, 10⟩ [] 0
      (mkReq ("OPTIONS") none (some ("not a bearer header")) none none none (.parsed none))
      (.thrown none)).2 = [] :=
  c7_preflight ⟨[("*")], none, 60, 10⟩ [] 0
    (mkReq ("OPTIONS") none (some ("not a bearer header")) none none none (.parsed none))
    (.thrown none) rfl

/-- C8 counterexample: a non-OPTIONS request from a disallowed origin is
terminated at the origin-validation stage with an explicit 403 /
UNAUTHORIZED_ORIGIN rejection — even when it carries a valid credential —
rather than continuing to the authentication stage as the claim states. -/
theorem c8_origin_cex :
    (handler ⟨[("http://good.example")], some ("secret"), 60, 10⟩ [] 0
      (mkReq ("POST") (some ("http://evil.example")) (some ("Bearer secret")) none none none
        (.parsed (some ("https://www.instagram.com/p/ABC123/"))))
      (.thrown none)).1 =
      { status := 403, allowOrigin := none, body := some unauthorizedOriginEnvelope } := by
  decide

/-- C8 (amended): for every non-OPTIONS request whose Origin header is
present and non-empty, not in the allow-list, with wildcard not configured,
the response omits the Access-Control-Allow-Origin header entirely, and the
request is terminated at the origin-validation stage with HTTP 403 /
UNAUTHORIZED_ORIGIN instead of continuing to the authentication stage; the
rate-limiter store is unchanged. -/
theorem c8_origin (cfg : Config) (store : RateStore) (now : Nat) (req : Request)
    (up : UpstreamOutcome) (o : String)
    (hm : req.method ≠ "OPTIONS") (ho : req.origin = some o) (hoe : o ≠ "")
    (hw : cfg.allowedOrigins.contains ("*") = false)
    (ha : cfg.allowedOrigins.contains o = false) :
    (handler cfg store now req up).1 =
      { status := 403, allowOrigin := none, body := some unauthorizedOriginEnvelope } ∧
    (handler cfg store now req up).2 = store := by
  have hm' : (req.method == "OPTIONS") = false := by simp [hm]
  have hw' : ("*") ∉ cfg.allowedOrigins := by simpa using hw
  have ha' : o ∉ cfg.allowedOrigins := by simpa using ha
  have hrej : originRejected cfg req = true := by
    simp [originRejected, ho, jsTruthy, hoe, hw', ha']
  have hcors : setCorsHeaders cfg.allowedOrigins req.origin = none := by
    simp [setCorsHeaders, ho, hoe, hw', ha']
  constructor
  · simp [handler, hm', hrej, jsonResponse, hcors]
  · simp [handler, hm', hrej]

/-- C8 witness: the amended statement at a concrete disallowed-origin
request. -/
theorem c8_origin_witness :
    (handler ⟨[("http://good.example")], none, 60, 10⟩ [] 5
      (mkReq ("POST") (some ("http://evil.example")) none none none none (.parsed none))
      (.thrown none)).1 =
      { status := 403, allowOrigin := none, body := some unauthorizedOriginEnvelope } ∧
    (handler ⟨[("http://good.example")], none, 60, 10⟩ [] 5
      (mkReq ("POST") (some ("http://evil.example")) none none none none (.parsed none))
      (.thrown none)).2 = [] :=
  c8_origin ⟨[("http://good.example")], none, 60, 10⟩ [] 5
    (mkReq ("POST") (some ("http://evil.example")) none none none none (.parsed none))
    (.thrown none) ("http://evil.example") (by decide) rfl (by decide) (by decide) (by decide)

/-- C4 counterexample: the claim's pattern (optional scheme; after the
identifier an optional trailing slash and then a truly arbitrary suffix)
disagrees with the code's regex on three points — `instagram.com/p/ABC123`
(no scheme) matches the claim's pattern but is rejected by the code;
`https://instagram.com/p/A*B` (suffix not preceded by a slash) is accepted
by the code but not by the claim's pattern; and the slash-separated suffix
of `https://instagram.com/p/A/B\nC` is arbitrary per the claim but is
rejected by the code, whose `.` never matches a line terminator. -/
theorem c4_url_pattern_cex :
    claimUrlPattern ("instagram.com/p/ABC123") = true ∧
    isValidInstagramUrl ("instagram.com/p/ABC123") = false ∧
    isValidInstagramUrl ("https://instagram.com/p/A*B") = true ∧
    claimUrlPattern ("https://instagram.com/p/A*B") = false ∧
    claimUrlPattern ("https://instagram.com/p/A/B\nC") = true ∧
    isValidInstagramUrl ("https://instagram.com/p/A/B\nC") = false := by
  exact ⟨by decide, by decide, by decide, by decide, by decide, by decide⟩

/-- C4 (amended): a url is accepted exactly when it has a REQUIRED
`https://` or `http://` scheme, optional `www.`, literal `instagram.com/`,
a segment `p`, `reel` or `tv`, a slash, then a non-empty run of identifier
characters `[a-zA-Z0-9_-]`, optionally one slash, and a suffix that is
arbitrary (not necessarily slash-separated) except that it may contain no
line terminator (LF, CR, U+2028, U+2029 — JS `.` excludes them and `$`
anchors at the end of input); and a request that reaches URL validation
with a url failing this pattern is answered 400 / INVALID_INSTAGRAM_URL. -/
theorem c4_url_pattern :
    (∀ s, isValidInstagramUrl s = amendedUrlPattern s) ∧
    (∀ (cfg : Config) (store : RateStore) (now : Nat) (req : Request)
       (up : UpstreamOutcome) (u : String),
      (req.method == "OPTIONS") = false →
      originRejected cfg req = false →
      authValid req.authorization = true →
      apiKeyRejected cfg (tokenOf req.authorization) = false →
      (rateLimitStep cfg store (rateLimitKeyOf req) now).1 = .admitted →
      req.body = .parsed (some u) → u ≠ "" →
      amendedUrlPattern u = false →
      (handler cfg store now req up).1.status = 400 ∧
      respErrCode (handler cfg store now req up).1 = some ("INVALID_INSTAGRAM_URL")) := by
  refine ⟨isValid_eq_amended, ?_⟩
  intro cfg store now req up u hm ho ha hk hrl hb hu hbad
  have hv : isValidInstagramUrl u = false := by rw [isValid_eq_amended]; exact hbad
  rw [handler_admitted_parsed cfg store now req up u hm ho ha hk hrl hb hu]
  simp [hv, jsonResponse, respErrCode, invalidUrlEnvelope]

/-- C4 witness: the amended statement at the concrete pattern-free url
`https://instagram.com/stories/x` on an otherwise admissible request. -/
theorem c4_url_pattern_witness :
    isValidInstagramUrl ("https://www.instagram.com/p/ABC123/") =
      amendedUrlPattern ("https://www.instagram.com/p/ABC123/") ∧
    (handler ⟨[("*")], none, 60, 10⟩ [] 0
      (mkReq ("POST") none (some ("Bearer tok")) none none none
        (.parsed (some ("https://instagram.com/stories/x"))))
      (.thrown none)).1.status = 400 ∧
    respErrCode (handler ⟨[("*")], none, 60, 10⟩ [] 0
      (mkReq ("POST") none (some ("Bearer tok")) none none none
        (.parsed (some ("https://instagram.com/stories/x"))))
      (.thrown none)).1 = some ("INVALID_INSTAGRAM_URL") :=
  ⟨c4_url_pattern.1 ("https://www.instagram.com/p/ABC123/"),
   c4_url_pattern.2 ⟨[("*")], none, 60, 10⟩ [] 0
    (mkReq ("POST") none (some ("Bearer tok")) none none none
      (.parsed (some ("https://instagram.com/stories/x"))))
    (.thrown none) ("https://instagram.com/stories/x")
    (by decide) (by decide) (by decide) (by decide) (by decide) rfl (by decide) (by decide)⟩

/-- C5: for every request that passes all gates and carries a (truthy,
pattern-valid) url — i.e. for every validated URL forwarded upstream — a
thrown upstream call yields 500 / FETCH_FAILED, an upstream response with a
falsy status, missing data, or missing/empty media list yields 404 /
NO_MEDIA_FOUND, and a usable upstream response yields 200 with
success:true. -/
theorem c5_upstream_mapping (cfg : Config) (store : RateStore) (now : Nat)
    (req : Request) (up : UpstreamOutcome) (u : String)
    (hm : (req.method == "OPTIONS") = false)
    (ho : originRejected cfg req = false)
    (ha : authValid req.authorization = true)
    (hk : apiKeyRejected cfg (tokenOf req.authorization) = false)
    (hrl : (rateLimitStep cfg store (rateLimitKeyOf req) now).1 = .admitted)
    (hb : req.body = .parsed (some u)) (hu : u ≠ "")
    (hv : isValidInstagramUrl u = true) :
    (∀ m, up = .thrown m →
      (handler cfg store now req up).1.status = 500 ∧
      (handler cfg store now req up).1.body = some fetchFailedEnvelope) ∧
    (∀ r, up = .ok r → upstreamNoMedia r = true →
      (handler cfg store now req up).1.status = 404 ∧
      (handler cfg store now req up).1.body = some noMediaEnvelope) ∧
    (∀ r, up = .ok r → upstreamNoMedia r = false →
      (handler cfg store now req up).1.status = 200 ∧
      ∃ b, (handler cfg store now req up).1.body = some b ∧ b.success = true) := by
  rw [handler_admitted_parsed cfg store now req up u hm ho ha hk hrl hb hu]
  refine ⟨?_, ?_, ?_⟩
  · rintro m rfl
    rw [fetch_thrown]
    constructor
    · simp [hv, jsonResponse, fetchFailedEnvelope]
    · simp [hv, jsonResponse]
  · rintro r rfl hnm
    rw [fetch_noMedia u r hnm]
    constructor
    · simp [hv, jsonResponse, noMediaEnvelope]
    · simp [hv, jsonResponse]
  · rintro r rfl hnm
    rcases fetch_hasMedia u r hnm with ⟨d, ms, _, _, _, _, heq⟩
    constructor
    · rw [heq]
      simp [hv, jsonResponse]
    · refine ⟨fetchInstagramMedia u (.ok r), ?_, ?_⟩
      · simp [hv, jsonResponse]
      · simp [heq]

/-- C5 witness: the three upstream outcomes at one concrete admissible
request. -/
theorem c5_upstream_mapping_witness :
    ((handler ⟨[("*")], none, 60, 10⟩ [] 0
      (mkReq ("POST") none (some ("Bearer tok")) none none none
        (.parsed (some ("https://www.instagram.com/p/ABC123/"))))
      (.thrown none)).1.status = 500 ∧
     (handler ⟨[("*")], none, 60, 10⟩ [] 0
      (mkReq ("POST") none (some ("Bearer tok")) none none none
        (.parsed (some ("https://www.instagram.com/p/ABC123/"))))
      (.thrown none)).1.body = some fetchFailedEnvelope) ∧
    ((handler ⟨[("*")], none, 60, 10⟩ [] 0
      (mkReq ("POST") none (some ("Bearer tok")) none none none
        (.parsed (some ("https://www.instagram.com/p/ABC123/"))))
      (.ok ⟨false, none⟩)).1.status = 404 ∧
     (handler ⟨[("*")], none, 60, 10⟩ [] 0
      (mkReq ("POST") none (some ("Bearer tok")) none none none
        (.parsed (some ("https://www.instagram.com/p/ABC123/"))))
      (.ok ⟨false, none⟩)).1.body = some noMediaEnvelope) :=
  ⟨(c5_upstream_mapping ⟨[("*")], none, 60, 10⟩ [] 0
      (mkReq ("POST") none (some ("Bearer tok")) none none none
        (.parsed (some ("https://www.instagram.com/p/ABC123/"))))
      (.thrown none) ("https://www.instagram.com/p/ABC123/")
      (by decide) (by decide) (by decide) (by decide) (by decide) rfl (by decide)
      (by decide)).1 none rfl,
   (c5_upstream_mapping ⟨[("*")], none, 60, 10⟩ [] 0
      (mkReq ("POST") none (some ("Bearer tok")) none none none
        (.parsed (some ("https://www.instagram.com/p/ABC123/"))))
      (.ok ⟨false, none⟩) ("https://www.instagram.com/p/ABC123/")
      (by decide) (by decide) (by decide) (by decide) (by decide) rfl (by decide)
      (by decide)).2.1 ⟨false, none⟩ rfl (by decide)⟩

/-- C6 counterexample: an upstream media whose `quality` field is present
but empty is normalized to the default `"default"`, so the default is not
applied only when the field is absent, as the claim states. -/
theorem c6_normalization_cex :
    (fetchInstagramMedia ("u")
      (.ok ⟨true, some ⟨none, none, some [⟨some (""), some ("x.mp4"), some ("2MB")⟩]⟩⟩)).data =
      some { mediaType := ("post"), originalUrl := ("u"), thumbnail := none,
             downloadOptions := [{ quality := ("default"), url := some ("x.mp4"),
                                   size := ("2MB") }] } ∧
    ¬ (("default") = ("")) := by
  exact ⟨by decide, by decide⟩

/-- C6 (amended): on a usable upstream payload, each upstream media maps in
order to a DownloadOption preserving `url`, taking `quality` from `quality`
and `size` from `formattedSize` whenever those fields are present and
non-empty, and falling back to `"default"` / `"unknown"` when the field is
absent or falsy (empty); the result `type` falls back to `"post"` the same
way, and list length and order are preserved. -/
theorem c6_normalization (url : String) (r : UpstreamResult) (d : UpstreamData)
    (ms : List UpstreamMedia)
    (hd : r.data = some d) (hm : d.medias = some ms) (hst : r.status = true)
    (hne : ms ≠ []) :
    ∃ mr : MediaResult, fetchInstagramMedia url (.ok r) =
        { success := true, data := some mr, error := none, errorCode := none } ∧
      mr.originalUrl = url ∧
      mr.thumbnail = d.thumbnail ∧
      ((d.mediaType = none ∨ d.mediaType = some ("")) → mr.mediaType = ("post")) ∧
      (∀ t, d.mediaType = some t → t ≠ "" → mr.mediaType = t) ∧
      mr.downloadOptions.length = ms.length ∧
      (∀ (i : Nat) (m : UpstreamMedia), ms[i]? = some m →
        ∃ o : DownloadOption, mr.downloadOptions[i]? = some o ∧
          o.url = m.url ∧
          ((m.quality = none ∨ m.quality = some ("")) → o.quality = ("default")) ∧
          (∀ q, m.quality = some q → q ≠ "" → o.quality = q) ∧
          ((m.formattedSize = none ∨ m.formattedSize = some ("")) → o.size = ("unknown")) ∧
          (∀ z, m.formattedSize = some z → z ≠ "" → o.size = z)) := by
  have hnm : upstreamNoMedia r = false := by
    simp [upstreamNoMedia, hd, hm, hst, hne]
  rcases fetch_hasMedia url r hnm with ⟨d', ms', hd', hm', _, _, heq⟩
  rw [hd] at hd'
  injection hd' with hdd
  subst hdd
  rw [hm] at hm'
  injection hm' with hmm
  subst hmm
  refine ⟨_, heq, rfl, rfl, ?_, ?_, by simp, ?_⟩
  · rintro (h | h) <;> simp [jsOrD, h]
  · intro t h ht
    simp [jsOrD, h, ht]
  · intro i m hms
    refine ⟨{ quality := jsOrD m.quality ("default"), url := m.url,
              size := jsOrD m.formattedSize ("unknown") }, ?_, rfl, ?_, ?_, ?_, ?_⟩
    · show (ms.map _)[i]? = _
      rw [List.getElem?_map, hms]
      rfl
    · rintro (h | h) <;> simp [jsOrD, h]
    · intro q h hq
      simp [jsOrD, h, hq]
    · rintro (h | h) <;> simp [jsOrD, h]
    · intro z h hz
      simp [jsOrD, h, hz]

/-- C6 witness: the spec's round-trip example
`{quality:"hd", url:"x.mp4", formattedSize:"2MB"}`. -/
theorem c6_normalization_witness :
    ∃ mr : MediaResult, fetchInstagramMedia ("https://www.instagram.com/p/ABC123/")
        (.ok ⟨true, some ⟨none, some ("th"), some [⟨some ("hd"), some ("x.mp4"), some ("2MB")⟩]⟩⟩) =
        { success := true, data := some mr, error := none, errorCode := none } ∧
      mr.originalUrl = ("https://www.instagram.com/p/ABC123/") ∧
      mr.thumbnail = (some ("th") : Option String) ∧
      (((none : Option String) = none ∨ (none : Option String) = some ("")) →
        mr.mediaType = ("post")) ∧
      (∀ t, (none : Option String) = some t → t ≠ "" → mr.mediaType = t) ∧
      mr.downloadOptions.length = ([⟨some ("hd"), some ("x.mp4"), some ("2MB")⟩] :
        List UpstreamMedia).length ∧
      (∀ (i : Nat) (m : UpstreamMedia),
          ([⟨some ("hd"), some ("x.mp4"), some ("2MB")⟩] : List UpstreamMedia)[i]? = some m →
        ∃ o : DownloadOption, mr.downloadOptions[i]? = some o ∧
          o.url = m.url ∧
          ((m.quality = none ∨ m.quality = some ("")) → o.quality = ("default")) ∧
          (∀ q, m.quality = some q → q ≠ "" → o.quality = q) ∧
          ((m.formattedSize = none ∨ m.formattedSize = some ("")) → o.size = ("unknown")) ∧
          (∀ z, m.formattedSize = some z → z ≠ "" → o.size = z)) :=
  c6_normalization ("https://www.instagram.com/p/ABC123/")
    ⟨true, some ⟨none, some ("th"), some [⟨some ("hd"), some ("x.mp4"), some ("2MB")⟩]⟩⟩
    ⟨none, some ("th"), some [⟨some ("hd"), some ("x.mp4"), some ("2MB")⟩]⟩
    [⟨some ("hd"), some ("x.mp4"), some ("2MB")⟩] rfl rfl rfl (by decide)

theorem jsOrD_falsy (x : Option String) (d : String) (h : jsTruthy x = false) :
    jsOrD x d = d := by
  cases x with
  | none => rfl
  | some s =>
    simp only [jsTruthy, Bool.not_eq_false', beq_iff_eq] at h
    simp [jsOrD, h]

theorem jsOrD_truthy (v d : String) (h : v ≠ "") : jsOrD (some v) d = v := by
  simp [jsOrD, h]

theorem jsOrS_of_ne (a b : String) (h : a ≠ "") : jsOrS a b = a := by
  simp [jsOrS, h]

theorem jsOrS_of_empty (b : String) : jsOrS ("") b = b := rfl

/-- C3 counterexample: a request with no Authorization header at all is
answered 403 / UNAUTHORIZED_ORIGIN — not 401 / AUTH_REQUIRED as the claim
states — because the origin gate runs before the authentication gate. -/
theorem c3_auth_gate_cex :
    (handler ⟨[("http://good.example")], none, 60, 10⟩ [] 0
      (mkReq ("POST") (some ("http://evil.example")) none none none none (.parsed none))
      (.thrown none)).1.status = 403 ∧
    ¬ (handler ⟨[("http://good.example")], none, 60, 10⟩ [] 0
        (mkReq ("POST") (some ("http://evil.example")) none none none none (.parsed none))
        (.thrown none)).1.status = 401 := by
  exact ⟨by decide, by decide⟩

/-- C3 (amended): for every non-OPTIONS request that passes the
origin-validation stage: a missing or non-`Bearer ` Authorization header is
answered 401 / AUTH_REQUIRED; with a well-formed header, if API_KEY is
configured non-empty and the supplied token differs, the answer is 401 /
INVALID_API_KEY; and if API_KEY is unset (or set to the empty string, which
the code treats as unset), every syntactically valid bearer header passes
the auth stage. -/
theorem c3_auth_gate (cfg : Config) (store : RateStore) (now : Nat)
    (req : Request) (up : UpstreamOutcome)
    (hm : (req.method == "OPTIONS") = false)
    (ho : originRejected cfg req = false) :
    (authValid req.authorization = false →
      (handler cfg store now req up).1.status = 401 ∧
      (handler cfg store now req up).1.body = some authRequiredEnvelope) ∧
    (∀ k, authValid req.authorization = true → cfg.requiredApiKey = some k → k ≠ "" →
      tokenOf req.authorization ≠ k →
      (handler cfg store now req up).1.status = 401 ∧
      (handler cfg store now req up).1.body = some invalidApiKeyEnvelope) ∧
    ((cfg.requiredApiKey = none ∨ cfg.requiredApiKey = some ("")) →
      authValid req.authorization = true →
      ¬ respErrCode (handler cfg store now req up).1 = some ("AUTH_REQUIRED") ∧
      ¬ respErrCode (handler cfg store now req up).1 = some ("INVALID_API_KEY")) := by
  refine ⟨?_, ?_, ?_⟩
  · intro hav
    constructor <;> simp [handler, hm, ho, hav, jsonResponse]
  · intro k hav hkey hke htok
    have hrej : apiKeyRejected cfg (tokenOf req.authorization) = true := by
      simp [apiKeyRejected, hkey, jsTruthy, hke, htok]
    constructor <;> simp [handler, hm, ho, hav, hrej, jsonResponse]
  · intro hkey hav
    have hk : apiKeyRejected cfg (tokenOf req.authorization) = false := by
      rcases hkey with h | h <;> simp [apiKeyRejected, h, jsTruthy]
    obtain ⟨-, hcodes⟩ := handler_past_auth cfg store now req up hm ho hav hk
    constructor <;> intro hEq <;>
      rcases hcodes with h|h|h|h|h|h|h <;> rw [hEq] at h <;> exact absurd h (by decide)

/-- C3 witness: the amended statement's first branch at a concrete request
with no Authorization header and an allowed origin. -/
theorem c3_auth_gate_witness :
    (handler ⟨[("*")], some ("secret"), 60, 10⟩ [] 0
      (mkReq ("POST") none none none none none (.parsed none)) (.thrown none)).1.status = 401 ∧
    (handler ⟨[("*")], some ("secret"), 60, 10⟩ [] 0
      (mkReq ("POST") none none none none none (.parsed none)) (.thrown none)).1.body =
      some authRequiredEnvelope :=
  (c3_auth_gate ⟨[("*")], some ("secret"), 60, 10⟩ [] 0
    (mkReq ("POST") none none none none none (.parsed none)) (.thrown none)
    (by decide) (by decide)).1 (by decide)

/-- C9 counterexample: with an empty bearer token and no forwarding
headers, the rate-limit identity is the sentinel `"unknown-ip"`, not
`"unknown"` as the claim states, and the handler stores the consumed slot
under `"unknown-ip"`. -/
theorem c9_identity_cex :
    rateLimitKeyOf (mkReq ("POST") none (some ("Bearer ")) none none none (.parsed none)) =
      ("unknown-ip") ∧
    ¬ rateLimitKeyOf (mkReq ("POST") none (some ("Bearer ")) none none none (.parsed none)) =
      ("unknown") ∧
    storeGet (handler ⟨[("*")], none, 60, 10⟩ [] 0
      (mkReq ("POST") none (some ("Bearer ")) none none none (.parsed none))
      (.thrown none)).2 ("unknown-ip") = some ⟨1, 60000⟩ ∧
    storeGet (handler ⟨[("*")], none, 60, 10⟩ [] 0
      (mkReq ("POST") none (some ("Bearer ")) none none none (.parsed none))
      (.thrown none)).2 ("unknown") = none := by
  exact ⟨by decide, by decide, by decide, by decide⟩

/-- C9 (amended): the rate-limit identity is the bearer token when the
extracted token is non-empty; otherwise the first present non-empty header
among X-Forwarded-For, X-Real-IP, CF-Connecting-IP, in that order;
otherwise the sentinel `"unknown-ip"`. -/
theorem c9_identity (req : Request) :
    (tokenOf req.authorization ≠ "" →
      rateLimitKeyOf req = tokenOf req.authorization) ∧
    (∀ v, tokenOf req.authorization = "" → req.xForwardedFor = some v → v ≠ "" →
      rateLimitKeyOf req = v) ∧
    (∀ v, tokenOf req.authorization = "" → jsTruthy req.xForwardedFor = false →
      req.xRealIp = some v → v ≠ "" → rateLimitKeyOf req = v) ∧
    (∀ v, tokenOf req.authorization = "" → jsTruthy req.xForwardedFor = false →
      jsTruthy req.xRealIp = false → req.cfConnectingIp = some v → v ≠ "" →
      rateLimitKeyOf req = v) ∧
    (tokenOf req.authorization = "" → jsTruthy req.xForwardedFor = false →
      jsTruthy req.xRealIp = false → jsTruthy req.cfConnectingIp = false →
      rateLimitKeyOf req = ("unknown-ip")) := by
  refine ⟨?_, ?_, ?_, ?_, ?_⟩
  · intro ht
    rw [rateLimitKeyOf, jsOrS_of_ne _ _ ht]
  · intro v ht hx hv
    rw [rateLimitKeyOf, ht, jsOrS_of_empty, clientIpOf, hx, jsOrD_truthy _ _ hv]
  · intro v ht hx hr hv
    rw [rateLimitKeyOf, ht, jsOrS_of_empty, clientIpOf, jsOrD_falsy _ _ hx, hr,
      jsOrD_truthy _ _ hv]
  · intro v ht hx hr hc hv
    rw [rateLimitKeyOf, ht, jsOrS_of_empty, clientIpOf, jsOrD_falsy _ _ hx,
      jsOrD_falsy _ _ hr, hc, jsOrD_truthy _ _ hv]
  · intro ht hx hr hc
    rw [rateLimitKeyOf, ht, jsOrS_of_empty, clientIpOf, jsOrD_falsy _ _ hx,
      jsOrD_falsy _ _ hr, jsOrD_falsy _ _ hc]

/-- C9 witness: the priority order at concrete requests — a non-empty token
wins, and with an empty token the X-Real-IP header is used when
X-Forwarded-For is absent. -/
theorem c9_identity_witness :
    rateLimitKeyOf (mkReq ("POST") none (some ("Bearer tok")) (some ("1.2.3.4")) none none
      (.parsed none)) = ("tok") ∧
    rateLimitKeyOf (mkReq ("POST") none (some ("Bearer ")) none (some ("5.6.7.8")) none
      (.parsed none)) = ("5.6.7.8") :=
  ⟨(c9_identity (mkReq ("POST") none (some ("Bearer tok")) (some ("1.2.3.4")) none none
      (.parsed none))).1 (by decide),
   (c9_identity (mkReq ("POST") none (some ("Bearer ")) none (some ("5.6.7.8")) none
      (.parsed none))).2.2.1 ("5.6.7.8") (by decide) (by decide) rfl (by decide)⟩

/-- C10: a request terminated with UNAUTHORIZED_ORIGIN, AUTH_REQUIRED or
INVALID_API_KEY leaves the rate-limiter store completely unchanged — those
rejections happen before the rate-limiter stage and consume no slot. -/
theorem c10_frame (cfg : Config) (store : RateStore) (now : Nat)
    (req : Request) (up : UpstreamOutcome)
    (h : respErrCode (handler cfg store now req up).1 = some ("UNAUTHORIZED_ORIGIN") ∨
         respErrCode (handler cfg store now req up).1 = some ("AUTH_REQUIRED") ∨
         respErrCode (handler cfg store now req up).1 = some ("INVALID_API_KEY")) :
    (handler cfg store now req up).2 = store := by
  by_cases hm : (req.method == "OPTIONS") = true
  · simp [handler, hm]
  · have hm' : (req.method == "OPTIONS") = false := by simpa using hm
    by_cases ho : originRejected cfg req = true
    · simp [handler, hm', ho]
    · have ho' : originRejected cfg req = false := by simpa using ho
      by_cases ha : authValid req.authorization = true
      · by_cases hk : apiKeyRejected cfg (tokenOf req.authorization) = true
        · simp [handler, hm', ho', ha, hk]
        · have hk' : apiKeyRejected cfg (tokenOf req.authorization) = false := by
            simpa using hk
          obtain ⟨-, hcodes⟩ := handler_past_auth cfg store now req up hm' ho' ha hk'
          exfalso
          rcases h with hEq | hEq | hEq <;> rcases hcodes with h|h|h|h|h|h|h <;>
            rw [hEq] at h <;> exact absurd h (by decide)
      · have ha' : authValid req.authorization = false := by simpa using ha
        simp [handler, hm', ho', ha']

/-- C10 witness: an auth-stage rejection leaves a non-empty store intact. -/
theorem c10_frame_witness :
    (handler ⟨[("*")], none, 60, 10⟩ [(("k"), ⟨3, 99⟩)] 0
      (mkReq ("POST") none none none none none (.parsed none)) (.thrown none)).2 =
      [(("k"), ⟨3, 99⟩)] :=
  c10_frame ⟨[("*")], none, 60, 10⟩ [(("k"), ⟨3, 99⟩)] 0
    (mkReq ("POST") none none none none none (.parsed none)) (.thrown none)
    (Or.inr (Or.inl (by decide)))

/-- A concrete failure envelope (success flag false, no data, both error
fields populated) satisfies the envelope invariant. -/
theorem envelopeOk_failure (e : ApiResponse) (h1 : e.success = false)
    (h2 : e.data = none) (h3 : e.error.isSome = true)
    (h4 : e.errorCode.isSome = true) : envelopeOk e := by
  constructor
  · intro hc
    rw [h1] at hc
    cases hc
  · intro _
    exact ⟨h2, h3, h4⟩

/-- C1 counterexample: with a configured maximum of M = 0 requests, the
first request of a fresh window (N = 1) is still admitted, because the
reset path never consults the maximum — so "admitted iff N ≤ M" fails. -/
theorem c1_rate_window_cex :
    (rateLimitStep ⟨[("*")], none, 60, 0⟩ [] ("k") 0).1 = RateOutcome.admitted ∧
    ¬ ((1 : Nat) ≤ 0) := by
  exact ⟨by decide, by decide⟩

/-- C1 (amended): provided the configured maximum M is at least 1, the N-th
request of an identity within the current window is admitted iff N ≤ M; a
request rejected with RATE_LIMITED still increments the stored count; and
the first request arriving after the entry's reset time resets the entry to
count 1 and is admitted (the latter two hold for every M). -/
theorem c1_rate_window :
    (∀ (cfg : Config) (key : String) (store : RateStore) (t0 : Nat) (ts : List Nat),
      1 ≤ cfg.rateLimitMaxRequests →
      storeGet store key = none →
      (∀ t ∈ ts, t ≤ t0 + cfg.rateLimitWindowSeconds * 1000) →
      ∀ i, i < (t0 :: ts).length →
        (((runOutcomes cfg key store (t0 :: ts)).1)[i]? = some RateOutcome.admitted ↔
          i + 1 ≤ cfg.rateLimitMaxRequests)) ∧
    (∀ (cfg : Config) (store : RateStore) (key : String) (now : Nat)
       (entry : RateLimitEntry),
      storeGet store key = some entry → ¬ entry.resetTime < now →
      cfg.rateLimitMaxRequests < entry.count + 1 →
      (rateLimitStep cfg store key now).1 = RateOutcome.limited ∧
      storeGet (rateLimitStep cfg store key now).2 key =
        some ⟨entry.count + 1, entry.resetTime⟩) ∧
    (∀ (cfg : Config) (store : RateStore) (key : String) (now : Nat)
       (entry : RateLimitEntry),
      storeGet store key = some entry → entry.resetTime < now →
      (rateLimitStep cfg store key now).1 = RateOutcome.admitted ∧
      storeGet (rateLimitStep cfg store key now).2 key =
        some ⟨1, now + cfg.rateLimitWindowSeconds * 1000⟩) := by
  refine ⟨?_, ?_, ?_⟩
  · intro cfg key store t0 ts hM hfresh hts i hi
    have hstep1 : rateLimitStep cfg store key t0 =
        (.admitted, storeSet store key ⟨1, t0 + cfg.rateLimitWindowSeconds * 1000⟩) := by
      simp [rateLimitStep, hfresh]
    have hget : storeGet (rateLimitStep cfg store key t0).2 key =
        some ⟨1, t0 + cfg.rateLimitWindowSeconds * 1000⟩ := by
      rw [hstep1]
      exact storeGet_storeSet_self store key _
    have hw := runOutcomes_window cfg key ts (rateLimitStep cfg store key t0).2 1
      (t0 + cfg.rateLimitWindowSeconds * 1000) hget hts
    cases i with
    | zero =>
      simp only [runOutcomes, List.getElem?_cons_zero, hstep1, Option.some_inj]
      exact ⟨fun _ => hM, fun _ => trivial⟩
    | succ j =>
      simp only [runOutcomes, List.getElem?_cons_succ]
      rw [hw.2 j]
      simp only [List.length_cons] at hi
      omega
  · intro cfg store key now entry hentry hnow hover
    simp only [rateLimitStep, hentry, if_neg hnow, if_pos hover]
    exact ⟨trivial, storeGet_storeSet_self store key _⟩
  · intro cfg store key now entry hentry hnow
    simp only [rateLimitStep, hentry, if_pos hnow]
    exact ⟨trivial, storeGet_storeSet_self store key _⟩

/-- C1 witness: the spec's example M = 3, W = 60 at identity "k" — the 3rd
request in the window is admitted, the 4th is rejected, and a request after
the reset time is admitted with count reset to 1. -/
theorem c1_rate_window_witness :
    (((runOutcomes ⟨[("*")], none, 60, 3⟩ ("k") [] [0, 1, 2, 3]).1)[2]? =
        some RateOutcome.admitted ↔ 2 + 1 ≤ 3) ∧
    (((runOutcomes ⟨[("*")], none, 60, 3⟩ ("k") [] [0, 1, 2, 3]).1)[3]? =
        some RateOutcome.admitted ↔ 3 + 1 ≤ 3) ∧
    ((rateLimitStep ⟨[("*")], none, 60, 3⟩ [(("k"), ⟨3, 60000⟩)] ("k") 70000).1 =
        RateOutcome.admitted ∧
      storeGet (rateLimitStep ⟨[("*")], none, 60, 3⟩ [(("k"), ⟨3, 60000⟩)] ("k") 70000).2
        ("k") = some ⟨1, 130000⟩) :=
  ⟨c1_rate_window.1 ⟨[("*")], none, 60, 3⟩ ("k") [] 0 [1, 2, 3]
      (by decide) (by decide) (by decide) 2 (by decide),
   c1_rate_window.1 ⟨[("*")], none, 60, 3⟩ ("k") [] 0 [1, 2, 3]
      (by decide) (by decide) (by decide) 3 (by decide),
   c1_rate_window.2.2 ⟨[("*")], none, 60, 3⟩ [(("k"), ⟨3, 60000⟩)] ("k") 70000
      ⟨3, 60000⟩ (by decide) (by decide)⟩

/-- C2 counterexample: the first edge-function variant answers a missing
`url` with HTTP 400 and the body `{"error":"URL is required"}` — a failure
body with no `success` flag and no `errorCode`, refuting the claim for that
request outcome. -/
theorem c2_envelope_cex :
    (handlerV1 { method := ("POST"), body := .parsed none } (.ok ⟨false, none⟩)).status = 400 ∧
    (handlerV1 { method := ("POST"), body := .parsed none } (.ok ⟨false, none⟩)).body =
      some { success := none, data := none, error := some ("URL is required"),
             errorCode := none } := by
  exact ⟨by decide, by decide⟩

/-- C2 (amended): every response of the HARDENED edge function with a JSON
body satisfies the envelope invariant — on success, `data` is populated and
`error`/`errorCode` are absent; on failure, `data` is absent and both
`success:false`, `error` and `errorCode` are populated — and every
non-OPTIONS request gets a JSON body. -/
theorem c2_envelope (cfg : Config) (store : RateStore) (now : Nat)
    (req : Request) (up : UpstreamOutcome) :
    (req.method ≠ "OPTIONS" → ((handler cfg store now req up).1.body).isSome = true) ∧
    (∀ b, (handler cfg store now req up).1.body = some b → envelopeOk b) := by
  by_cases hm : (req.method == "OPTIONS") = true
  · have hm0 : req.method = "OPTIONS" := by simpa using hm
    refine ⟨fun hne => absurd hm0 hne, fun b hb => ?_⟩
    rw [show (handler cfg store now req up).1.body = none by simp [handler, hm]] at hb
    cases hb
  · have hm' : (req.method == "OPTIONS") = false := by simpa using hm
    by_cases ho : originRejected cfg req = true
    · refine ⟨fun _ => by simp [handler, hm', ho, jsonResponse], fun b hb => ?_⟩
      simp only [handler, hm', ho, jsonResponse, Bool.false_eq_true, if_false, if_true,
        Option.some_inj] at hb
      subst hb
      exact envelopeOk_failure _ rfl rfl rfl rfl
    · have ho' : originRejected cfg req = false := by simpa using ho
      by_cases ha0 : authValid req.authorization = true
      · by_cases hk0 : apiKeyRejected cfg (tokenOf req.authorization) = true
        · refine ⟨fun _ => by simp [handler, hm', ho', ha0, hk0, jsonResponse],
            fun b hb => ?_⟩
          simp [handler, hm', ho', ha0, hk0, jsonResponse] at hb
          subst hb
          exact envelopeOk_failure _ rfl rfl rfl rfl
        · have hk' : apiKeyRejected cfg (tokenOf req.authorization) = false := by
            simpa using hk0
          cases hrl : (rateLimitStep cfg store (rateLimitKeyOf req) now).1 with
          | limited =>
            refine ⟨fun _ => by simp [handler, hm', ho', ha0, hk', hrl, jsonResponse],
              fun b hb => ?_⟩
            simp [handler, hm', ho', ha0, hk', hrl, jsonResponse] at hb
            subst hb
            exact envelopeOk_failure _ rfl rfl rfl rfl
          | admitted =>
            cases hb0 : req.body with
            | failed m =>
              refine ⟨fun _ => by
                  simp [handler, hm', ho', ha0, hk', hrl, hb0, jsonResponse],
                fun b hb => ?_⟩
              simp [handler, hm', ho', ha0, hk', hrl, hb0, jsonResponse] at hb
              subst hb
              exact envelopeOk_failure _ rfl rfl rfl rfl
            | parsed u =>
              by_cases hu : jsTruthy u = true
              · by_cases hv : isValidInstagramUrl (u.getD ("")) = true
                · refine ⟨fun _ => by
                      simp [handler, hm', ho', ha0, hk', hrl, hb0, hu, hv, jsonResponse],
                    fun b hb => ?_⟩
                  simp [handler, hm', ho', ha0, hk', hrl, hb0, hu, hv, jsonResponse] at hb
                  subst hb
                  exact fetch_envelopeOk _ up
                · have hv' : isValidInstagramUrl (u.getD ("")) = false := by simpa using hv
                  refine ⟨fun _ => by
                      simp [handler, hm', ho', ha0, hk', hrl, hb0, hu, hv', jsonResponse],
                    fun b hb => ?_⟩
                  simp [handler, hm', ho', ha0, hk', hrl, hb0, hu, hv', jsonResponse] at hb
                  subst hb
                  exact envelopeOk_failure _ rfl rfl rfl rfl
              · have hu' : jsTruthy u = false := by simpa using hu
                refine ⟨fun _ => by
                    simp [handler, hm', ho', ha0, hk', hrl, hb0, hu', jsonResponse],
                  fun b hb => ?_⟩
                simp [handler, hm', ho', ha0, hk', hrl, hb0, hu', jsonResponse] at hb
                subst hb
                exact envelopeOk_failure _ rfl rfl rfl rfl
      · have ha' : authValid req.authorization = false := by simpa using ha0
        refine ⟨fun _ => by simp [handler, hm', ho', ha', jsonResponse], fun b hb => ?_⟩
        simp [handler, hm', ho', ha', jsonResponse] at hb
        subst hb
        exact envelopeOk_failure _ rfl rfl rfl rfl

/-- C2 witness: the invariant at a concrete successful request and at a
concrete auth failure. -/
theorem c2_envelope_witness :
    ((handler ⟨[("*")], none, 60, 10⟩ [] 0
      (mkReq ("POST") none (some ("Bearer tok")) none none none
        (.parsed (some ("https://www.instagram.com/p/ABC123/"))))
      (.ok ⟨false, none⟩)).1.body).isSome = true ∧
    (∀ b, (handler ⟨[("*")], none, 60, 10⟩ [] 0
      (mkReq ("POST") none (some ("Bearer tok")) none none none
        (.parsed (some ("https://www.instagram.com/p/ABC123/"))))
      (.ok ⟨false, none⟩)).1.body = some b → envelopeOk b) :=
  ⟨(c2_envelope ⟨[("*")], none, 60, 10⟩ [] 0
      (mkReq ("POST") none (some ("Bearer tok")) none none none
        (.parsed (some ("https://www.instagram.com/p/ABC123/"))))
      (.ok ⟨false, none⟩)).1 (by decide),
   (c2_envelope ⟨[("*")], none, 60, 10⟩ [] 0
      (mkReq ("POST") none (some ("Bearer tok")) none none none
        (.parsed (some ("https://www.instagram.com/p/ABC123/"))))
      (.ok ⟨false, none⟩)).2⟩

end InstaDL
